import Mathlib

/-!
Verification of the host-communication / build-lifecycle core of the
Sailfish-G3Firmware repository, shallowly embedded from
`src/firmware/src/Motherboard/Host.cc` (namespace `host`).

Conventions of the embedding:
* Machine bytes are `Nat` values (< 256 in any well-formed transport frame);
  16/32-bit reply fields are emitted little-endian, low byte first, exactly
  as `OutPacket::append16` / `append32` do.
* The free mutable globals of `Host.cc` are gathered into one `Machine`
  record; every function of `Host.cc` becomes a pure function from the old
  `Machine` (plus a per-call environment) to the new one.
* Calls into external modules that are part of the repository but whose
  sources are not under `src/` (command queue, sdcard, steppers, tool link,
  Timeout, eeprom block I/O, Motherboard indicators) are modelled from the
  spec; each such definition carries a doc comment saying so.  Their
  observable outcomes for one call are inputs in the `Env` record, and the
  calls this core makes to them are recorded in an `Effects` record.
-/

namespace host

/-! ### Protocol constants

`Commands.hh` and `Errors.hh` are not under `src/`.  The numeric values
below are modelled (standard s3g protocol assignments where known); no
theorem depends on the particular values, only on their distinctness. -/

def RC_GENERIC_ERROR : Nat := 0x80
def RC_OK : Nat := 0x81
def RC_BUFFER_OVERFLOW : Nat := 0x82
def RC_CRC_MISMATCH : Nat := 0x83
def RC_PACKET_LENGTH : Nat := 0x84
def RC_CMD_UNSUPPORTED : Nat := 0x85
def RC_DOWNSTREAM_TIMEOUT : Nat := 0x87
def RC_CANCEL_BUILD : Nat := 0x89
def RC_BOT_BUILDING : Nat := 0x8A
def RC_PACKET_TIMEOUT : Nat := 0x8B
def RC_PACKET_ERROR : Nat := 0x8C

def HOST_CMD_VERSION : Nat := 0
def HOST_CMD_INIT : Nat := 1
def HOST_CMD_GET_BUFFER_SIZE : Nat := 2
def HOST_CMD_CLEAR_BUFFER : Nat := 3
def HOST_CMD_GET_POSITION : Nat := 4
def HOST_CMD_ABORT : Nat := 7
def HOST_CMD_PAUSE : Nat := 8
def HOST_CMD_TOOL_QUERY : Nat := 10
def HOST_CMD_IS_FINISHED : Nat := 11
def HOST_CMD_READ_EEPROM : Nat := 12
def HOST_CMD_WRITE_EEPROM : Nat := 13
def HOST_CMD_CAPTURE_TO_FILE : Nat := 14
def HOST_CMD_END_CAPTURE : Nat := 15
def HOST_CMD_PLAYBACK_CAPTURE : Nat := 16
def HOST_CMD_RESET : Nat := 17
def HOST_CMD_NEXT_FILENAME : Nat := 18
def HOST_CMD_GET_BUILD_NAME : Nat := 20
def HOST_CMD_GET_POSITION_EXT : Nat := 21
def HOST_CMD_EXTENDED_STOP : Nat := 22
def HOST_CMD_BOARD_STATUS : Nat := 23
def HOST_CMD_GET_BUILD_STATS : Nat := 24
def HOST_CMD_ADVANCED_VERSION : Nat := 27

/-- Board error indicator codes (`Errors.hh` not under `src/`; modelled,
only distinctness matters). -/
def ERR_HOST_PACKET_MISC : Nat := 1
def ERR_CANCEL_BUILD : Nat := 2
def ERR_SLAVE_LOCK_TIMEOUT : Nat := 3
def ERR_HOST_TRUNCATED_CMD : Nat := 4
def ERR_RESET_DURING_BUILD : Nat := 5

/-- Slave (tool board) pause/unpause opcode (`Commands.hh` not under
`src/`; modelled). -/
def SLAVE_CMD_PAUSE_UNPAUSE : Nat := 23

/-- Heater-pause flag bits (modelled; passed opaquely to the command
module). -/
def PAUSE_EXT_OFF : Nat := 1
def PAUSE_HBP_OFF : Nat := 2

/-- `Configuration.hh` is not under `src/`: fixed name-buffer capacities,
modelled from the spec ("fixed-capacity byte sequences"). -/
def MAX_FILE_LEN : Nat := 32

def MAX_MACHINE_NAME_LEN : Nat := 16

def HOST_PACKET_TIMEOUT_MICROS : Nat := 200000

def HOST_TOOL_RESPONSE_TIMEOUT_MICROS : Nat := 50000

def ONE_HOUR : Nat := 3600000000

/-- Modelled from the spec: eeprom map locations (`EepromMap.hh` not under
`src/`); only distinctness matters. -/
def CLEAR_FOR_ESTOP : Nat := 0x0116

def ABP_COPIES : Nat := 0x0117

/-! ### External-module data types -/

/-- Packet-framing error states of an `InPacket` (framing is an external
collaborator; only the error code read by `Host.cc` is modelled). -/
inductive PacketError
  | NO_ERROR
  | NOISE_BYTE
  | EXCEEDED_MAX_LENGTH
  | BAD_CRC
  | PACKET_TIMEOUT
  | APPEND_BUFFER_OVERFLOW
  deriving DecidableEq, Repr

/-- Host state machine values (`Host.hh` not under `src/`; the enum is
given by the spec data model). -/
inductive HostState
  | READY
  | BUILDING
  | BUILDING_FROM_SD
  | CANCEL_BUILD
  deriving DecidableEq, Repr

/-- Build state machine values (spec data model). -/
inductive BuildState
  | NONE
  | RUNNING
  | FINISHED_NORMALLY
  | PAUSED
  | CANCELED
  | CANCELLING
  deriving DecidableEq, Repr

/-- Modelled from the spec: the command module's pause progress
(`Command.cc` not under `src/`).  `pauseBuild` distinguishes "already in
the requested pause state" (`isPaused`) from "a pause/unpause transition is
already in progress" (`pauseIntermediateState`); `command::pause` begins a
transition that settles over later command slices. -/
inductive PauseState
  | NONE
  | ENTERING
  | PAUSED
  | EXITING
  deriving DecidableEq, Repr

/-- Modelled from the spec: `command::isPaused()`. -/
def isPausedB : PauseState → Bool
  | PauseState.PAUSED => true
  | _ => false

/-- Modelled from the spec: `command::pauseIntermediateState()` — a
pause/unpause transition has been requested but has not settled. -/
def pauseIntermediateStateB : PauseState → Bool
  | PauseState.ENTERING => true
  | PauseState.EXITING => true
  | _ => false

/-- Modelled from the spec: `command::pause(pause, heaterControl)` begins
the requested transition (the heater-control byte is honored inside the
command module and has no observable effect in this core). -/
def commandPause (pause : Bool) (_heaterControl : Nat) : PauseState :=
  if pause then PauseState.ENTERING else PauseState.EXITING

/-- Modelled from the spec: the reusable bounded-wait `Timeout`
(`Timeout.cc` not under `src/`): an arm-time plus duration; pausing
freezes elapsed-time accrual without resetting the arm point.  The current
time `now` (microseconds) is passed explicitly. -/
structure Timeout where
  active : Bool := false
  start_time : Nat := 0
  duration : Nat := 0
  isPausedT : Bool := false
  elapsed_at_pause : Nat := 0
  deriving DecidableEq, Repr

def Timeout.startT (now dur : Nat) : Timeout :=
  ⟨true, now, dur, false, 0⟩

def Timeout.getCurrentElapsed (t : Timeout) (now : Nat) : Nat :=
  if t.isPausedT then t.elapsed_at_pause else now - t.start_time

def Timeout.hasElapsed (t : Timeout) (now : Nat) : Bool :=
  t.active && decide (t.duration ≤ t.getCurrentElapsed now)

def Timeout.isActive (t : Timeout) : Bool := t.active

def Timeout.abortT (t : Timeout) : Timeout := { t with active := false }

def Timeout.pauseT (t : Timeout) (now : Nat) (p : Bool) : Timeout :=
  if p then { t with isPausedT := true, elapsed_at_pause := now - t.start_time }
  else { t with isPausedT := false, start_time := now - t.elapsed_at_pause }

/-! ### Packet byte access (`Packet.cc` framing is external; these mirror
`InPacket::read8/read16` and `OutPacket::append8/16/32` byte order). -/

def read8 (p : List Nat) (i : Nat) : Nat := p.getD i 0

/-- `read16`: little-endian, as read by `InPacket::read16`. -/
def read16 (p : List Nat) (i : Nat) : Nat := read8 p i + 256 * read8 p (i + 1)

/-- `read16` assigned into an `int16_t` variable (two's-complement
reinterpretation), as in `handleVersion`. -/
def readI16 (p : List Nat) (i : Nat) : Int :=
  let v : Nat := (read16 p i) % 65536
  if v < 32768 then (v : Int) else (v : Int) - 65536

/-- `OutPacket::append16`: low byte first. -/
def le16 (v : Nat) : List Nat := [v % 256, v / 256 % 256]

/-- `OutPacket::append32`: low byte first. -/
def le32 (v : Nat) : List Nat :=
  [v % 256, v / 256 % 256, v / 65536 % 256, v / 16777216 % 256]

/-- `append32` of a signed 32-bit value (stepper positions). -/
def le32i (v : Int) : List Nat := le32 ((v % (4294967296 : Int)).toNat)

/-! ### Machine state and per-tick environment -/

/-- All mutable state this core owns or reads-and-writes: the file-scope
globals of `Host.cc`, plus the modelled state of the command module
(bounded byte queue, pause progress, line counter, copy counts) and the
persisted eeprom byte store. -/
structure Machine where
  currentState : HostState := HostState.READY
  buildState : BuildState := BuildState.NONE
  machineName : List Nat := List.replicate (MAX_MACHINE_NAME_LEN + 1) 0
  buildName : List Nat := List.replicate MAX_FILE_LEN 0
  last_print_hours : Nat := 0
  last_print_minutes : Nat := 0
  last_print_line : Nat := 0
  print_time_hours : Nat := 0
  print_time : Timeout := {}
  do_host_reset : Bool := false
  hard_reset : Bool := false
  cancelBuild : Bool := false
  packet_in_timeout : Timeout := {}
  cancel_timeout : Timeout := {}
  do_host_reset_timeout : Timeout := {}
  /-- Modelled from the spec: the command module's bounded byte queue
  contents (`Command.cc` not under `src/`). -/
  queue : List Nat := []
  /-- Modelled from the spec: the queue's fixed capacity in bytes. -/
  queueCapacity : Nat := 512
  pauseSt : PauseState := PauseState.NONE
  lineNumber : Nat := 0
  copiesToPrint : Nat := 0
  copiesPrinted : Nat := 0
  /-- Modelled from the spec: the external persisted key-value byte store,
  as a total byte map. -/
  eeprom : Nat → Nat := fun _ => 0

/-- Modelled from the spec: `command::getRemainingCapacity()`. -/
def remainingCapacity (m : Machine) : Nat := m.queueCapacity - m.queue.length

/-- Modelled from the spec: `command::push` appends one byte to the
bounded queue (callers check capacity first). -/
def commandPushByte (q : List Nat) (b : Nat) : List Nat := q ++ [b]

/-- Modelled from the spec: `eeprom::getEeprom8(loc, default)` — an erased
(0xff) byte reads as the supplied default. -/
def getEeprom8 (e : Nat → Nat) (loc dflt : Nat) : Nat :=
  let v := e loc
  if v = 0xff then dflt else v

/-- Modelled from the spec: `eeprom_write_block` over the byte map. -/
def eepromWriteBlock (e : Nat → Nat) (offset : Nat) (data : List Nat) : Nat → Nat :=
  fun a => if offset ≤ a ∧ a < offset + data.length then data.getD (a - offset) 0 else e a

/-- Per-call environment: everything `Host.cc` reads from external
collaborators during one invocation.  The outcomes of the two bounded
polling loops of the tool-transaction coordinator (lock acquired within
the 50 ms bound; transaction completed with or without a packet timeout)
are environment inputs because they depend on real time and on the
external tool module. -/
structure Env where
  now : Nat := 0
  outIsSending : Bool := false
  inStarted : Bool := false
  inFinished : Bool := false
  inHasError : Bool := false
  inErrorCode : PacketError := PacketError.NO_ERROR
  packet : List Nat := []
  sdCapturing : Bool := false
  sdPlaying : Bool := false
  sdStartCaptureCode : Nat := 0
  sdFinishCaptureVal : Nat := 0
  sdStartPlaybackCode : Nat := 0
  dirResetCode : Nat := 0
  dirEntries : List (List Nat × Bool) := []
  posX : Int := 0
  posY : Int := 0
  posZ : Int := 0
  endstops : Nat := 0
  steppersRunning : Bool := false
  toolLockOk : Bool := true
  toolTimedOut : Bool := false
  toolReply : List Nat := []
  toolIndex : Nat := 0

/-- Build-time constants of the firmware image (`Version.hh` not under
`src/`; modelled from the spec: the firmware version is a fixed 16-bit
constant of the build). -/
structure Config where
  firmware_version : Nat := 0
  internal_version : Nat := 0
  variantId : Nat := 0

/-- Observable calls this core makes into external modules during one
invocation. -/
structure Effects where
  indicators : List Nat := []
  steppersAborted : Bool := false
  steppersReset : Bool := false
  boardSecondsReset : Bool := false
  heatersPaused : Bool := false
  stopBuildCalls : Nat := 0
  immediateResetArmed : Bool := false
  toolLockAttempted : Bool := false
  toolTx : List (List Nat) := []
  captured : List (List Nat) := []
  deriving DecidableEq, Repr

def Effects.merge (a b : Effects) : Effects :=
  ⟨a.indicators ++ b.indicators,
   a.steppersAborted || b.steppersAborted,
   a.steppersReset || b.steppersReset,
   a.boardSecondsReset || b.boardSecondsReset,
   a.heatersPaused || b.heatersPaused,
   a.stopBuildCalls + b.stopBuildCalls,
   a.immediateResetArmed || b.immediateResetArmed,
   a.toolLockAttempted || b.toolLockAttempted,
   a.toolTx ++ b.toolTx,
   a.captured ++ b.captured⟩

/-- The empty effects record (no external calls). -/
def fxNone : Effects := {}

/-! ### processCommandPacket (Host.cc lines 207-241) -/

/-- Result of `processCommandPacket`: whether the packet was recognised as
a command packet, the new machine state, and the reply bytes appended to
`to_host`. -/
structure COut where
  handled : Bool
  m : Machine
  reply : List Nat
  fx : Effects

/-- The enqueue loop of `processCommandPacket`: `for (i = 0; i <
command_length; i++) command::push(from_host.read8(i));`. -/
def pushLoop (q : List Nat) (pkt : List Nat) (n : Nat) : List Nat :=
  (List.range n).foldl (fun acc i => commandPushByte acc (read8 pkt i)) q

/-- `processCommandPacket` (Host.cc 207-241): applies only when the opcode
high bit is set; forwards to the capture sink while capturing, rejects
while playing back, otherwise does a guarded all-or-nothing enqueue under
the interrupt-disabled block. -/
def processCommandPacket (env : Env) (m : Machine) (pkt : List Nat) : COut :=
  if 1 ≤ pkt.length then
    let command := read8 pkt 0
    if command &&& 0x80 ≠ 0 then
      if env.sdCapturing then
        ⟨true, m, [RC_OK], { captured := [pkt] }⟩
      else if env.sdPlaying then
        ⟨true, m, [RC_BOT_BUILDING], fxNone⟩
      else
        -- uint8_t command_length = from_host.getLength()
        let command_length := pkt.length % 256
        if command_length ≤ remainingCapacity m then
          ⟨true, { m with queue := pushLoop m.queue pkt command_length }, [RC_OK], fxNone⟩
        else
          ⟨true, m, [RC_BUFFER_OVERFLOW], fxNone⟩
    else ⟨false, m, [], fxNone⟩
  else ⟨false, m, [], fxNone⟩

theorem pushLoop_eq_append (pkt : List Nat) :
    ∀ (n : Nat) (q : List Nat), n ≤ pkt.length →
      pushLoop q pkt n = q ++ pkt.take n := by
  intro n
  induction n with
  | zero => intro q _; simp [pushLoop]
  | succ k ih =>
      intro q hk
      have hk' : k ≤ pkt.length := Nat.le_of_succ_le hk
      have hklt : k < pkt.length := hk
      unfold pushLoop at ih ⊢
      rw [List.range_succ, List.foldl_append]
      rw [ih q hk']
      rw [List.take_succ]
      simp [commandPushByte, read8, List.getD, List.getElem?_eq_getElem hklt]

/-! ### Print-time accounting (Host.cc 838-865) -/

/-- `startPrintTime` (Host.cc 838-841). -/
def startPrintTime (now : Nat) (m : Machine) : Machine :=
  { m with print_time := Timeout.startT now ONE_HOUR, print_time_hours := 0 }

/-- `getPrintTime` (Host.cc 860-865): hours counter plus sub-hour minutes. -/
def getPrintTime (now : Nat) (m : Machine) : Nat × Nat :=
  (m.print_time_hours, m.print_time.getCurrentElapsed now / 60000000)

/-- `stopPrintTime` (Host.cc 843-848): records elapsed time into
`last_print_hours/minutes` and clears the timer. -/
def stopPrintTime (now : Nat) (m : Machine) : Machine :=
  let hm := getPrintTime now m
  { m with last_print_hours := hm.1, last_print_minutes := hm.2,
           print_time := {}, print_time_hours := 0 }

/-- `managePrintTime` (Host.cc 850-857): re-arm the sub-hour timer on each
hour boundary. -/
def managePrintTime (now : Nat) (m : Machine) : Machine :=
  if m.print_time.hasElapsed now then
    { m with print_time := Timeout.startT now ONE_HOUR,
             print_time_hours := m.print_time_hours + 1 }
  else m

/-! ### Build lifecycle (Host.cc 784-836, 868-877) -/

/-- `stopBuildNow` (Host.cc 784-797): finalizes a cancel; when streaming
from the host, arms the 1-second cancel grace window and the
cancel-notification flag before the deferred reset. -/
def stopBuildNow (now : Nat) (m : Machine) : Machine :=
  let m :=
    if m.currentState = HostState.BUILDING then
      { m with currentState := HostState.CANCEL_BUILD,
               cancel_timeout := Timeout.startT now 1000000,
               cancelBuild := true }
    else m
  let m := { m with last_print_line := m.lineNumber }
  let m := stopPrintTime now m
  { m with do_host_reset := true,
           do_host_reset_timeout := Timeout.startT now 200000,
           buildState := BuildState.CANCELED }

/-- `stopBuild` (Host.cc 802-814): cooperative cancel — pause first unless
already paused or settling, finalizing immediately in that case. -/
def stopBuild (now : Nat) (m : Machine) : Machine × Effects :=
  let m := { m with buildState := BuildState.CANCELLING }
  let fx : Effects := { steppersAborted := true, stopBuildCalls := 1 }
  if isPausedB m.pauseSt || pauseIntermediateStateB m.pauseSt then
    (stopBuildNow now m, fx)
  else
    ({ m with pauseSt := commandPause true 0 }, fx)

/-- `pauseBuild` (Host.cc 817-836). -/
def pauseBuild (now : Nat) (pause : Bool) (heaterControl : Nat) (m : Machine) : Machine :=
  if pause = isPausedB m.pauseSt then m
  else if pauseIntermediateStateB m.pauseSt then m
  else
    let m := { m with pauseSt := commandPause pause heaterControl }
    if pause then
      { m with buildState := BuildState.PAUSED,
               print_time := m.print_time.pauseT now true }
    else
      { m with buildState := BuildState.RUNNING,
               print_time := m.print_time.pauseT now false }

/-- `resetBuild` (Host.cc 868-872). -/
def resetBuild (m : Machine) : Machine :=
  { m with machineName := m.machineName.set 0 0,
           buildName := m.buildName.set 0 0,
           currentState := HostState.READY }

/-- Modelled from the spec: sdcard error codes (`SDCard.hh` not under
`src/`); `SD_SUCCESS` is 0, `SD_CWD` is the "playback already at this
directory" result, `SD_ERR_CARD_LOCKED` the locked-card result.  Only
distinctness matters. -/
def SD_SUCCESS : Nat := 0

def SD_ERR_CARD_LOCKED : Nat := 7

def SD_CWD : Nat := 9

/-- Modelled from the spec: persisted default copy count
(`EepromDefaults.hh` not under `src/`). -/
def EEPROM_DEFAULT_ABP_COPIES : Nat := 1

/-- `startBuildFromSD` (Host.cc 746-781), for the `fname == 0` call made
by `handlePlayback` (the build name is already stored).  The playback
start result is an environment input. -/
def startBuildFromSDStored (env : Env) (m : Machine) : Machine × Nat × Effects :=
  let e := env.sdStartPlaybackCode
  if e = SD_CWD then (m, SD_SUCCESS, fxNone)
  else if e ≠ SD_SUCCESS then (m, e, fxNone)
  else
    let m := { m with queue := [], lineNumber := 0 }
    let m := { m with copiesToPrint := getEeprom8 m.eeprom ABP_COPIES EEPROM_DEFAULT_ABP_COPIES,
                      currentState := HostState.BUILDING_FROM_SD }
    (m, e, { steppersReset := true, steppersAborted := true })

/-! ### Build start / stop notifications (Host.cc 538-574) -/

/-- `CircularBuffer::pop` on the command stream; popping an empty buffer
is modelled as yielding 0. -/
def bufPop : List Nat → Nat × List Nat
  | [] => (0, [])
  | b :: t => (b, t)

/-- The `while ((uint8_t)buf.pop() != 0);` drain of a trailing embedded
name field (Host.cc 543). -/
def drainName : List Nat → List Nat
  | [] => []
  | b :: t => if b = 0 then t else drainName t

/-- The `do { buildName[idx++] = buf.pop(); } while (buildName[idx-1] !=
0 && idx < sizeof(buildName));` copy loop (Host.cc 552-554).  `fuel`
bounds the loop exactly as `idx < MAX_FILE_LEN` does. -/
def copyNameLoop (name buf : List Nat) (idx fuel : Nat) : List Nat × List Nat :=
  match fuel with
  | 0 => (name, buf)
  | f + 1 =>
    let pb := bufPop buf
    let name := name.set idx pb.1
    if pb.1 ≠ 0 ∧ idx + 1 < MAX_FILE_LEN then copyNameLoop name pb.2 (idx + 1) f
    else (name, pb.2)

/-- `handleBuildStartNotification` (Host.cc 538-563): consumes an optional
name from the queued command stream depending on the current host state,
then unconditionally restarts per-print bookkeeping and marks the build
running.  (The `PSTOP_SUPPORT` conditional block is not part of this
build.) -/
def handleBuildStartNotification (now : Nat) (m : Machine) (buf : List Nat) :
    Machine × List Nat × Effects :=
  let r :=
    match m.currentState with
    | HostState.BUILDING_FROM_SD => (m, drainName buf)
    | HostState.READY =>
        let m := { m with currentState := HostState.BUILDING }
        let nb := copyNameLoop m.buildName buf 0 MAX_FILE_LEN
        ({ m with buildName := nb.1 }, nb.2)
    | HostState.BUILDING =>
        let nb := copyNameLoop m.buildName buf 0 MAX_FILE_LEN
        ({ m with buildName := nb.1 }, nb.2)
    | _ => (m, buf)
  let m := startPrintTime now r.1
  let m := { m with lineNumber := 0, buildState := BuildState.RUNNING }
  (m, r.2, { boardSecondsReset := true })

/-- `handleBuildStopNotification` (Host.cc 566-574). -/
def handleBuildStopNotification (now : Nat) (m : Machine) : Machine × Effects :=
  if m.copiesToPrint = 0 ∨ m.copiesToPrint - 1 ≤ m.copiesPrinted then
    let m := stopPrintTime now m
    let m := { m with last_print_line := m.lineNumber,
                      buildState := BuildState.FINISHED_NORMALLY,
                      currentState := HostState.READY }
    (m, { heatersPaused := true })
  else (m, fxNone)

/-! ### Query handlers (Host.cc 245-600) -/

/-- `handleVersion` (Host.cc 245-260): hosts strictly below 39 get version
0x0000, except the grandfathered RepG 29 (second-extruder toolhead setup
carve-out). -/
def handleVersion (cfg : Config) (pkt : List Nat) : List Nat :=
  let rv := readI16 pkt 1
  if rv ≠ 29 ∧ rv < 39 then RC_OK :: le16 0x0000
  else RC_OK :: le16 cfg.firmware_version

/-- `handleGetAdvancedVersion` (Host.cc 264-276). -/
def handleGetAdvancedVersion (cfg : Config) (_pkt : List Nat) : List Nat :=
  RC_OK :: le16 cfg.firmware_version ++ le16 cfg.internal_version ++
    [cfg.variantId % 256, 0] ++ le16 0

/-- The buildName copy-out loop of `handleGetBuildName` (Host.cc 281-284):
appends bytes up to and including the first NUL, bounded by the buffer. -/
def buildNamePrefix : List Nat → List Nat
  | [] => []
  | b :: t => if b = 0 then [0] else b :: buildNamePrefix t

/-- `handleGetBuildName` (Host.cc 279-285). -/
def handleGetBuildName (m : Machine) : List Nat :=
  RC_OK :: buildNamePrefix m.buildName

/-- `handleGetBufferSize` (Host.cc 287-290). -/
def handleGetBufferSize (m : Machine) : List Nat :=
  RC_OK :: le32 (remainingCapacity m)

/-- `handleGetPosition` (Host.cc 292-304). -/
def handleGetPosition (env : Env) : List Nat :=
  RC_OK :: le32i env.posX ++ le32i env.posY ++ le32i env.posZ ++ [env.endstops % 256]

/-- `handleGetPositionExt` (Host.cc 306-326); `STEPPER_COUNT` is 3 on this
board, so the a/b axes are reported as 0. -/
def handleGetPositionExt (env : Env) : List Nat :=
  RC_OK :: le32i env.posX ++ le32i env.posY ++ le32i env.posZ ++
    le32 0 ++ le32 0 ++ le16 (env.endstops % 256)

/-- `handleCaptureToFile` (Host.cc 329-337); the capture-start result is
the sdcard module's. -/
def handleCaptureToFile (env : Env) : List Nat :=
  [RC_OK, env.sdStartCaptureCode % 256]

/-- `handleEndCapture` (Host.cc 340-344). -/
def handleEndCapture (env : Env) : List Nat :=
  RC_OK :: le32 env.sdFinishCaptureVal

/-- `handlePlayback` (Host.cc 347-359): copies the requested file name
into the build-name buffer (bounded, forcibly NUL-terminating the last
cell) and starts SD playback. -/
def handlePlayback (env : Env) (m : Machine) (pkt : List Nat) :
    Machine × List Nat × Effects :=
  let n := min pkt.length MAX_FILE_LEN
  let name := (List.range (n - 1)).foldl
      (fun nm j => nm.set j (read8 pkt (j + 1))) m.buildName
  let name := name.set (MAX_FILE_LEN - 1) 0
  let m := { m with buildName := name }
  let r := startBuildFromSDStored env m
  (r.1, [RC_OK, r.2.1 % 256], r.2.2)

/-- The dot-entry skipping loop of `handleNextFilename` (Host.cc 378-383):
stop at an empty name, or at an entry that is not a dot-file (keeping a
directory named exactly `..`); otherwise advance.  Running off the end of
the directory is the empty-name case. -/
def skipDotEntries : List (List Nat × Bool) → List Nat
  | [] => List.replicate MAX_FILE_LEN 0
  | e :: rest =>
    if read8 e.1 0 = 0 then e.1
    else if read8 e.1 0 ≠ 46 ∨ (e.2 ∧ read8 e.1 1 = 46 ∧ read8 e.1 2 = 0) then e.1
    else skipDotEntries rest

/-- The name copy-out loop of `handleNextFilename` (Host.cc 386-388):
bytes strictly before the first NUL. -/
def nameBytesUpTo : List Nat → List Nat
  | [] => []
  | b :: t => if b = 0 then [] else b :: nameBytesUpTo t

/-- `handleNextFilename` (Host.cc 362-390). -/
def handleNextFilename (env : Env) (pkt : List Nat) : List Nat :=
  let resetFlag := read8 pkt 1
  if resetFlag ≠ 0 ∧ env.dirResetCode ≠ SD_SUCCESS ∧ env.dirResetCode ≠ SD_ERR_CARD_LOCKED then
    [RC_OK, env.dirResetCode % 256, 0]
  else
    let fn := skipDotEntries env.dirEntries
    [RC_OK, SD_SUCCESS] ++ nameBytesUpTo (fn.take MAX_FILE_LEN) ++ [0]

/-- `doToolPause` (Host.cc 392-423): the tool-transaction coordinator for
the pause/unpause relay.  The outcomes of its two bounded waits are
environment inputs; the bytes it appends to the host reply and the
transaction it starts are returned. -/
def doToolPause (env : Env) : List Nat × Effects :=
  if ¬env.toolLockOk then
    ([RC_DOWNSTREAM_TIMEOUT],
     { indicators := [ERR_SLAVE_LOCK_TIMEOUT], toolLockAttempted := true })
  else
    let fx : Effects :=
      { toolLockAttempted := true, toolTx := [[env.toolIndex, SLAVE_CMD_PAUSE_UNPAUSE]] }
    if env.toolTimedOut then ([RC_DOWNSTREAM_TIMEOUT], fx)
    else (env.toolReply, fx)

/-- `handleToolQuery` (Host.cc 425-464): length precondition, then the
same coordinator sequence with the relayed payload. -/
def handleToolQuery (env : Env) (m : Machine) (pkt : List Nat) :
    Machine × List Nat × Effects :=
  if pkt.length < 2 then
    (m, [RC_PACKET_ERROR], { indicators := [ERR_HOST_TRUNCATED_CMD] })
  else if ¬env.toolLockOk then
    (m, [RC_DOWNSTREAM_TIMEOUT],
     { indicators := [ERR_SLAVE_LOCK_TIMEOUT], toolLockAttempted := true })
  else
    let out := (List.range (pkt.length - 1)).map (fun i => read8 pkt (i + 1))
    let fx : Effects := { toolLockAttempted := true, toolTx := [out] }
    if env.toolTimedOut then (m, [RC_DOWNSTREAM_TIMEOUT], fx)
    else (m, env.toolReply, fx)

/-- `handlePause` (Host.cc 466-476): unless a pause/unpause is still
settling, toggles the build pause and relays a tool pause; the OK code is
appended after whatever `doToolPause` wrote. -/
def handlePause (env : Env) (m : Machine) : Machine × List Nat × Effects :=
  if ¬pauseIntermediateStateB m.pauseSt then
    let m := pauseBuild env.now (!isPausedB m.pauseSt) (PAUSE_EXT_OFF ||| PAUSE_HBP_OFF) m
    let tp := doToolPause env
    (m, tp.1 ++ [RC_OK], tp.2)
  else (m, [RC_OK], fxNone)

/-- `handleIsFinished` (Host.cc 479-485). -/
def handleIsFinished (env : Env) (m : Machine) : List Nat :=
  [RC_OK, if ¬env.steppersRunning ∧ m.queue = [] then 1 else 0]

/-- `handleReadEeprom` (Host.cc 488-498). -/
def handleReadEeprom (m : Machine) (pkt : List Nat) : List Nat :=
  let offset := read16 pkt 1
  let length := read8 pkt 3
  RC_OK :: (List.range length).map (fun i => m.eeprom (offset + i))

/-- `handleWriteEeprom` (Host.cc 503-516): reads the target region into a
scratch buffer, overwrites every cell of it from the packet payload, and
writes the buffer back; replies OK plus the byte count. -/
def handleWriteEeprom (m : Machine) (pkt : List Nat) : Machine × List Nat :=
  let offset := read16 pkt 1
  let length := read8 pkt 3
  let data0 := (List.range length).map (fun i => m.eeprom (offset + i))
  let data := (List.range length).foldl (fun d i => d.set i (read8 pkt (i + 4))) data0
  ({ m with eeprom := eepromWriteBlock m.eeprom offset data }, [RC_OK, length])

/-- `handleExtendedStop` (Host.cc 524-535): bit 0 aborts motion, bit 1
clears the command queue, independently. -/
def handleExtendedStop (m : Machine) (pkt : List Nat) : Machine × List Nat × Effects :=
  let flags := read8 pkt 1
  let fx : Effects := if flags &&& 1 ≠ 0 then { steppersAborted := true } else fxNone
  let m := if flags &&& 2 ≠ 0 then { m with queue := [], lineNumber := 0 } else m
  (m, [RC_OK, 0], fx)

/-- The `BuildState` wire encoding used by `handleGetBuildStats`
(`Host.hh` not under `src/`; modelled, values immaterial). -/
def buildStateCode : BuildState → Nat
  | BuildState.NONE => 0
  | BuildState.RUNNING => 1
  | BuildState.FINISHED_NORMALLY => 2
  | BuildState.PAUSED => 3
  | BuildState.CANCELED => 4
  | BuildState.CANCELLING => 5

/-- `handleGetBuildStats` (Host.cc 577-594). -/
def handleGetBuildStats (env : Env) (m : Machine) : List Nat :=
  let hm := getPrintTime env.now m
  [RC_OK, buildStateCode m.buildState, hm.1 % 256, hm.2 % 256] ++
    le32 (if m.buildState = BuildState.RUNNING ∨ m.buildState = BuildState.PAUSED
          then m.lineNumber else m.last_print_line) ++
    le32 0

/-- `handleGetBoardStatus` (Host.cc 596-600). -/
def handleGetBoardStatus : List Nat := [RC_OK, 0]

/-! ### processQueryPacket (Host.cc 603-702) -/

/-- Result of `processQueryPacket`. -/
structure QOut where
  handled : Bool
  m : Machine
  reply : List Nat
  fx : Effects

/-- The shared `HOST_CMD_CLEAR_BUFFER` / `HOST_CMD_ABORT` /
`HOST_CMD_RESET` case body (Host.cc 620-643): during a build, raises the
reset-during-build indicator, and — when the persisted `CLEAR_FOR_ESTOP`
policy byte is 1 — diverts into the cooperative cancel path instead of
arming the immediate deferred reset.  (`HAS_FILAMENT_COUNTER` is not
defined for this build.) -/
def handleResetRequest (env : Env) (m : Machine) : Machine × List Nat × Effects :=
  if m.currentState = HostState.BUILDING ∨ m.currentState = HostState.BUILDING_FROM_SD then
    if getEeprom8 m.eeprom CLEAR_FOR_ESTOP 0 = 1 then
      let m := { m with buildState := BuildState.CANCELED }
      let r := stopBuild env.now m
      (r.1, [RC_OK], Effects.merge r.2 { indicators := [ERR_RESET_DURING_BUILD] })
    else
      let m := { m with do_host_reset := true,
                        do_host_reset_timeout := Timeout.startT env.now 200000 }
      (m, [RC_OK], { indicators := [ERR_RESET_DURING_BUILD], immediateResetArmed := true })
  else
    let m := { m with do_host_reset := true,
                      do_host_reset_timeout := Timeout.startT env.now 200000 }
    (m, [RC_OK], { immediateResetArmed := true })

/-- `processQueryPacket` (Host.cc 603-702): applies only when the opcode
high bit is clear; dispatches by opcode, falling through (unhandled) on
unknown opcodes. -/
def processQueryPacket (cfg : Config) (env : Env) (m : Machine) (pkt : List Nat) : QOut :=
  if 1 ≤ pkt.length then
    let command := read8 pkt 0
    if command &&& 0x80 = 0 then
      if command = HOST_CMD_VERSION then
        ⟨true, m, handleVersion cfg pkt, fxNone⟩
      else if command = HOST_CMD_GET_BUILD_NAME then
        ⟨true, m, handleGetBuildName m, fxNone⟩
      else if command = HOST_CMD_INIT then
        ⟨true, m, [RC_OK], fxNone⟩
      else if command = HOST_CMD_CLEAR_BUFFER ∨ command = HOST_CMD_ABORT ∨
              command = HOST_CMD_RESET then
        let r := handleResetRequest env m
        ⟨true, r.1, r.2.1, r.2.2⟩
      else if command = HOST_CMD_GET_BUFFER_SIZE then
        ⟨true, m, handleGetBufferSize m, fxNone⟩
      else if command = HOST_CMD_GET_POSITION then
        ⟨true, m, handleGetPosition env, fxNone⟩
      else if command = HOST_CMD_GET_POSITION_EXT then
        ⟨true, m, handleGetPositionExt env, fxNone⟩
      else if command = HOST_CMD_CAPTURE_TO_FILE then
        ⟨true, m, handleCaptureToFile env, fxNone⟩
      else if command = HOST_CMD_END_CAPTURE then
        ⟨true, m, handleEndCapture env, fxNone⟩
      else if command = HOST_CMD_PLAYBACK_CAPTURE then
        let r := handlePlayback env m pkt
        ⟨true, r.1, r.2.1, r.2.2⟩
      else if command = HOST_CMD_NEXT_FILENAME then
        ⟨true, m, handleNextFilename env pkt, fxNone⟩
      else if command = HOST_CMD_PAUSE then
        let r := handlePause env m
        ⟨true, r.1, r.2.1, r.2.2⟩
      else if command = HOST_CMD_TOOL_QUERY then
        let r := handleToolQuery env m pkt
        ⟨true, r.1, r.2.1, r.2.2⟩
      else if command = HOST_CMD_IS_FINISHED then
        ⟨true, m, handleIsFinished env m, fxNone⟩
      else if command = HOST_CMD_READ_EEPROM then
        ⟨true, m, handleReadEeprom m pkt, fxNone⟩
      else if command = HOST_CMD_WRITE_EEPROM then
        let r := handleWriteEeprom m pkt
        ⟨true, r.1, r.2, fxNone⟩
      else if command = HOST_CMD_EXTENDED_STOP then
        let r := handleExtendedStop m pkt
        ⟨true, r.1, r.2.1, r.2.2⟩
      else if command = HOST_CMD_BOARD_STATUS then
        ⟨true, m, handleGetBoardStatus, fxNone⟩
      else if command = HOST_CMD_GET_BUILD_STATS then
        ⟨true, m, handleGetBuildStats env m, fxNone⟩
      else if command = HOST_CMD_ADVANCED_VERSION then
        ⟨true, m, handleGetAdvancedVersion cfg pkt, fxNone⟩
      else ⟨false, m, [], fxNone⟩
    else ⟨false, m, [], fxNone⟩
  else ⟨false, m, [], fxNone⟩

/-! ### runHostSlice (Host.cc 94-200) -/

/-- Result of one tick: the new machine state, the response sent on the
host UART this tick (if any), the external calls made, and whether this
tick performed the board reset (`reset(hard_reset)`, Host.cc 117 — the
only call site of the board reset in this core). -/
structure RunOut where
  m : Machine
  sent : Option (List Nat)
  fx : Effects
  boardReset : Bool
  boardResetHard : Bool

/-- The transport-error reply code selection (Host.cc 147-161). -/
def errorReplyCode : PacketError → Nat
  | PacketError.PACKET_TIMEOUT => RC_PACKET_TIMEOUT
  | PacketError.BAD_CRC => RC_CRC_MISMATCH
  | PacketError.EXCEEDED_MAX_LENGTH => RC_PACKET_LENGTH
  | _ => RC_PACKET_ERROR

/-- Steps (4)-(6) of `runHostSlice` (Host.cc 131-191): advance the
inbound-packet timeout (`in.timeout()` marks the packet, which the same
tick then reports), report a transport error, or dispatch a finished
packet — a pending cancel notification taking precedence. -/
def hostSliceDispatch (cfg : Config) (env : Env) (m : Machine) :
    Machine × Option (List Nat) × Effects :=
  let receiving := env.inStarted ∧ ¬env.inFinished
  let timeoutFires := receiving ∧ m.packet_in_timeout.isActive ∧
                      m.packet_in_timeout.hasElapsed env.now
  let m := if receiving ∧ ¬m.packet_in_timeout.isActive then
             { m with packet_in_timeout := Timeout.startT env.now HOST_PACKET_TIMEOUT_MICROS }
           else m
  let hasError := env.inHasError ∨ timeoutFires
  let errCode := if env.inHasError then env.inErrorCode else PacketError.PACKET_TIMEOUT
  if hasError then
    ({ m with packet_in_timeout := m.packet_in_timeout.abortT },
     some [errorReplyCode errCode],
     ({ indicators := [ERR_HOST_PACKET_MISC] } : Effects))
  else if env.inFinished then
    let m := { m with packet_in_timeout := m.packet_in_timeout.abortT }
    if m.cancelBuild then
      ({ m with cancelBuild := false }, some [RC_CANCEL_BUILD],
       ({ indicators := [ERR_CANCEL_BUILD] } : Effects))
    else
      let c := processCommandPacket env m env.packet
      if c.handled then (c.m, some c.reply, c.fx)
      else
        let q := processQueryPacket cfg env m env.packet
        if q.handled then (q.m, some q.reply, q.fx)
        else (m, some [RC_CMD_UNSUPPORTED], fxNone)
  else (m, none, fxNone)

/-- Step (1) of `runHostSlice` (Host.cc 97-99): finalize a pending cancel
once the command queue has reached the stable paused state. -/
def cancelFinalize (now : Nat) (m : Machine) : Machine :=
  if m.buildState = BuildState.CANCELLING ∧ m.pauseSt = PauseState.PAUSED
  then stopBuildNow now m else m

/-- `runHostSlice` (Host.cc 94-200), one cooperative tick:
(1) finalize a pending cancel once the pause has settled; (2) hold off
while a reply is draining (unless the reset grace timeout has elapsed);
(3) perform a due deferred reset; (4)-(6) `hostSliceDispatch`;
(7) reconcile host state with SD playback completion; (8) advance the
print timer. -/
def runHostSlice (cfg : Config) (env : Env) (m0 : Machine) : RunOut :=
  let m := cancelFinalize env.now m0
  if env.outIsSending ∧
     (¬m.do_host_reset ∨ (m.do_host_reset ∧ ¬m.do_host_reset_timeout.hasElapsed env.now)) then
    ⟨m, none, fxNone, false, false⟩
  else if m.do_host_reset ∧ (¬m.cancelBuild ∨ m.cancel_timeout.hasElapsed env.now) then
    let r := if m.buildState = BuildState.RUNNING ∨ m.buildState = BuildState.PAUSED
             then stopBuild env.now m else (m, fxNone)
    let hard := r.1.hard_reset
    let m := { r.1 with do_host_reset := false, hard_reset := false,
                        packet_in_timeout := r.1.packet_in_timeout.abortT,
                        machineName := r.1.machineName.set 0 0,
                        buildName := r.1.buildName.set 0 0,
                        currentState := HostState.READY }
    ⟨m, none, r.2, true, hard⟩
  else
    let step := hostSliceDispatch cfg env m
    let m := step.1
    let m := if m.currentState = HostState.BUILDING_FROM_SD ∧ ¬env.sdPlaying then
               { m with currentState := HostState.READY }
             else m
    let m := managePrintTime env.now m
    ⟨m, step.2.1, step.2.2, false, false⟩

/-! ### Helper lemmas -/

theorem take_length_self (pkt : List Nat) : pkt.take pkt.length = pkt :=
  List.take_length pkt

theorem getD_range_map (l : List Nat) :
    (List.range l.length).map (fun i => l.getD i 0) = l := by
  apply List.ext_getElem
  · simp
  · intro i h1 h2
    simp [List.getD, List.getElem?_eq_getElem h2]

/-! ### C1 — all-or-nothing enqueue of action packets -/

/-- C1: for every finished inbound packet whose opcode byte has the high
bit set, with storage capture and playback both inactive,
`processCommandPacket` recognises the packet, and either — when the
queue's remaining capacity is at least the packet length — pushes every
byte of the packet in order and replies OK, or — otherwise — leaves the
machine (the queue included) unchanged and replies buffer-overflow. -/
theorem C1_command_enqueue_all_or_nothing (env : Env) (m : Machine) (pkt : List Nat)
    (hcap : env.sdCapturing = false) (hplay : env.sdPlaying = false)
    (hlen : 1 ≤ pkt.length) (hlen255 : pkt.length ≤ 255)
    (hop : read8 pkt 0 &&& 0x80 ≠ 0) :
    (processCommandPacket env m pkt).handled = true ∧
    (pkt.length ≤ remainingCapacity m →
      (processCommandPacket env m pkt).m = { m with queue := m.queue ++ pkt } ∧
      (processCommandPacket env m pkt).reply = [RC_OK]) ∧
    (remainingCapacity m < pkt.length →
      (processCommandPacket env m pkt).m = m ∧
      (processCommandPacket env m pkt).reply = [RC_BUFFER_OVERFLOW]) := by
  have hmod : pkt.length % 256 = pkt.length :=
    Nat.mod_eq_of_lt (lt_of_le_of_lt hlen255 (by norm_num))
  have hpush : pushLoop m.queue pkt pkt.length = m.queue ++ pkt := by
    rw [pushLoop_eq_append pkt pkt.length m.queue le_rfl, take_length_self]
  unfold processCommandPacket
  simp only [hcap, hplay, hmod, if_pos hlen, if_pos hop, Bool.false_eq_true, if_false]
  by_cases hc : pkt.length ≤ remainingCapacity m
  · simp only [if_pos hc]
    refine ⟨by trivial, fun _ => ⟨by simp [hpush], by trivial⟩,
            fun hlt => absurd hc (not_le.mpr hlt)⟩
  · simp only [if_neg hc]
    exact ⟨by trivial, fun hle => absurd hle hc, fun _ => ⟨by trivial, by trivial⟩⟩

/-- C1 witness: a concrete 2-byte action packet on a fresh machine is
queued whole with an OK reply. -/
theorem C1_witness :
    (processCommandPacket {} {} [0x85, 7]).m =
      { ({} : Machine) with queue := [] ++ [0x85, 7] } ∧
    (processCommandPacket {} {} [0x85, 7]).reply = [RC_OK] := by
  have h := C1_command_enqueue_all_or_nothing {} {} [0x85, 7]
    rfl rfl (by decide) (by decide) (by decide)
  exact h.2.1 (by norm_num [remainingCapacity, Machine.queue])

/-! ### C3 / C4 — the VERSION gate -/

/-- C3 counterexample: on a build whose firmware version constant is 407,
a VERSION query carrying host version 29 is answered with the real
firmware version, not with 0x0000 as the claim states — 29 is the
grandfathered legacy version (Host.cc 247-251).  (The claim could only
hold on a build whose firmware version is itself 0, which the version
protocol reserves as the incompatible-host lie, Host.cc footnote
881-886.) -/
theorem C3_counterexample :
    handleVersion { firmware_version := 407 } [HOST_CMD_VERSION, 29, 0] ≠
      RC_OK :: le16 0 := by decide

/-- C3 amended: VERSION with host value 29 replies OK followed by the
firmware version (grandfathered); 38 replies OK + 0x0000; 39 replies
OK + the firmware version. -/
theorem C3_amended (cfg : Config) :
    handleVersion cfg [HOST_CMD_VERSION, 29, 0] = RC_OK :: le16 cfg.firmware_version ∧
    handleVersion cfg [HOST_CMD_VERSION, 38, 0] = RC_OK :: le16 0 ∧
    handleVersion cfg [HOST_CMD_VERSION, 39, 0] = RC_OK :: le16 cfg.firmware_version := by
  refine ⟨?_, ?_, ?_⟩ <;>
    norm_num [handleVersion, readI16, read16, read8, HOST_CMD_VERSION]

/-- C4: the VERSION reply is version 0 for every host version strictly
below the minimum supported version 39, except the grandfathered legacy
version 29, which receives the real firmware version. -/
theorem C4_version_floor (cfg : Config) (pkt : List Nat) :
    (readI16 pkt 1 < 39 → readI16 pkt 1 ≠ 29 →
      handleVersion cfg pkt = RC_OK :: le16 0) ∧
    (readI16 pkt 1 = 29 →
      handleVersion cfg pkt = RC_OK :: le16 cfg.firmware_version) := by
  constructor
  · intro hlt hne
    simp [handleVersion, hne, hlt]
  · intro h29
    simp [handleVersion, h29]

/-- C4 witness: host version 38 is answered with version 0; host version
29 (grandfathered) with the real firmware version. -/
theorem C4_witness :
    handleVersion { firmware_version := 407 } [HOST_CMD_VERSION, 38, 0] =
      RC_OK :: le16 0 ∧
    handleVersion { firmware_version := 407 } [HOST_CMD_VERSION, 29, 0] =
      RC_OK :: le16 407 := by
  refine ⟨(C4_version_floor { firmware_version := 407 } [HOST_CMD_VERSION, 38, 0]).1
            (by decide) (by decide),
          (C4_version_floor { firmware_version := 407 } [HOST_CMD_VERSION, 29, 0]).2
            (by decide)⟩

/-! ### C5 — truncated TOOL_QUERY -/

/-- C5: a TOOL_QUERY whose payload is shorter than 2 bytes replies
packet-error as the (only) response byte, raises the truncated-command
indicator, and returns with the machine unchanged, no lock-acquisition
attempt and no tool transaction started. -/
theorem C5_tool_query_truncated (env : Env) (m : Machine) (pkt : List Nat)
    (h : pkt.length < 2) :
    (handleToolQuery env m pkt).1 = m ∧
    (handleToolQuery env m pkt).2.1 = [RC_PACKET_ERROR] ∧
    (handleToolQuery env m pkt).2.2.indicators = [ERR_HOST_TRUNCATED_CMD] ∧
    (handleToolQuery env m pkt).2.2.toolLockAttempted = false ∧
    (handleToolQuery env m pkt).2.2.toolTx = [] := by
  simp [handleToolQuery, h]

/-- C5 witness: a 1-byte TOOL_QUERY. -/
theorem C5_witness :
    (handleToolQuery {} {} [HOST_CMD_TOOL_QUERY]).2.1 = [RC_PACKET_ERROR] ∧
    (handleToolQuery {} {} [HOST_CMD_TOOL_QUERY]).2.2.toolLockAttempted = false :=
  ⟨(C5_tool_query_truncated {} {} [HOST_CMD_TOOL_QUERY] (by decide)).2.1,
   (C5_tool_query_truncated {} {} [HOST_CMD_TOOL_QUERY] (by decide)).2.2.2.1⟩

/-! ### C7 — pauseBuild idempotence -/

/-- C7: `pauseBuild(true, h)` issued a second time immediately after a
first call — whether the pause is still settling or has already been
reached — leaves the whole machine state (BuildState, command-queue pause
state, print timer) unchanged, and a call requesting the pause state the
build is already in is a no-op. -/
theorem C7_pauseBuild_idempotent (now1 now2 h : Nat) (m : Machine) :
    pauseBuild now2 true h (pauseBuild now1 true h m) = pauseBuild now1 true h m ∧
    pauseBuild now1 (isPausedB m.pauseSt) h m = m := by
  constructor
  · cases hp : m.pauseSt <;>
      simp [pauseBuild, isPausedB, pauseIntermediateStateB, commandPause, hp]
  · simp [pauseBuild]

/-! ### C9 — PAUSE reply layout -/

/-- C9 counterexample: a PAUSE query handled while the tool lock cannot be
acquired within its bound produces downstream-timeout as the FIRST
response byte, with OK appended after it (Host.cc 466-476 appends
`RC_OK` after `doToolPause` has already written into the reply), so the
first byte of the outbound response is not the OK code. -/
theorem C9_counterexample :
    (handlePause { toolLockOk := false } {}).2.1 = [RC_DOWNSTREAM_TIMEOUT, RC_OK] ∧
    RC_DOWNSTREAM_TIMEOUT ≠ RC_OK := by decide

/-- C9 amended: for every PAUSE query the OK result code is the LAST byte
of the outbound response, appended after any relayed tool-pause reply
bytes; when a pause/unpause transition is already settling (no relay), the
response is exactly the single OK byte. -/
theorem C9_ok_is_last_byte (env : Env) (m : Machine) :
    (∃ pre, (handlePause env m).2.1 = pre ++ [RC_OK]) ∧
    (handlePause env { m with pauseSt := PauseState.ENTERING }).2.1 = [RC_OK] := by
  constructor
  · by_cases hp : pauseIntermediateStateB m.pauseSt
    · exact ⟨[], by simp [handlePause, hp]⟩
    · exact ⟨(doToolPause env).1, by simp [handlePause, hp]⟩
  · simp [handlePause, pauseIntermediateStateB]

/-! ### C10 — build-start notification is unconditional on prior state -/

/-- C10: `handleBuildStartNotification` sets BuildState to RUNNING,
restarts the print timer and clears the line counter for EVERY prior host
state — including the transitional CANCEL_BUILD state and READY — not
only in the BUILDING / BUILDING_FROM_SD cases; only the name-consumption
behavior varies by state. -/
theorem C10_build_start_unconditional (now : Nat) (m : Machine) (buf : List Nat) :
    (handleBuildStartNotification now m buf).1.buildState = BuildState.RUNNING ∧
    (handleBuildStartNotification now m buf).1.print_time = Timeout.startT now ONE_HOUR ∧
    (handleBuildStartNotification now m buf).1.print_time_hours = 0 ∧
    (handleBuildStartNotification now m buf).1.lineNumber = 0 := by
  cases hc : m.currentState <;>
    simp [handleBuildStartNotification, startPrintTime, hc]

/-! ### C8 — EEPROM write/read round-trip -/

theorem foldl_set_overwrite (f : Nat → Nat) (n : Nat) (d : List Nat) (hk : n ≤ d.length) :
    (List.range n).foldl (fun d i => d.set i (f i)) d =
      (List.range n).map f ++ d.drop n := by
  induction n with
  | zero => simp
  | succ k ih =>
      have hklt : k < d.length := hk
      have hset : (List.drop k d).set 0 (f k) = f k :: List.drop (k + 1) d := by
        rw [List.drop_eq_getElem_cons hklt]; rfl
      rw [List.range_succ, List.foldl_append, ih (Nat.le_of_succ_le hk)]
      simp only [List.foldl_cons, List.foldl_nil]
      rw [List.set_append_right _ _ (by simp)]
      simp [hset, List.range_succ]

theorem getD_cons4 (a b c e : Nat) (l : List Nat) (i : Nat) :
    (a :: b :: c :: e :: l).getD (i + 4) 0 = l.getD i 0 := by
  simp [List.getD_cons_succ, show i + 4 = (((i + 1) + 1) + 1) + 1 from rfl]

/-- C8: writing `len` bytes at `offset` and reading the same region back
returns exactly the written data after the OK code, and the write reply
reports `len` as the byte count. -/
theorem C8_eeprom_roundtrip (m : Machine) (offset len : Nat) (data : List Nat)
    (hlen : data.length = len) (_hlen255 : len ≤ 255) (hoff : offset ≤ 65535) :
    (handleWriteEeprom m (HOST_CMD_WRITE_EEPROM :: (le16 offset ++ len :: data))).2 =
      [RC_OK, len] ∧
    handleReadEeprom
      (handleWriteEeprom m (HOST_CMD_WRITE_EEPROM :: (le16 offset ++ len :: data))).1
      (HOST_CMD_READ_EEPROM :: (le16 offset ++ [len])) = RC_OK :: data := by
  have hr16w : read16 (HOST_CMD_WRITE_EEPROM :: (le16 offset ++ len :: data)) 1 = offset := by
    simp [read16, read8, le16]; omega
  have hr16r : read16 (HOST_CMD_READ_EEPROM :: (le16 offset ++ [len])) 1 = offset := by
    simp [read16, read8, le16]; omega
  have hl8w : read8 (HOST_CMD_WRITE_EEPROM :: (le16 offset ++ len :: data)) 3 = len := by
    simp [read8, le16]
  have hl8r : read8 (HOST_CMD_READ_EEPROM :: (le16 offset ++ [len])) 3 = len := by
    simp [read8, le16]
  have hbyte : ∀ i, read8 (HOST_CMD_WRITE_EEPROM :: (le16 offset ++ len :: data)) (i + 4) =
      data.getD i 0 := by
    intro i
    simp [read8, le16, getD_cons4]
  have hmap : (List.range len).map
      (fun i => read8 (HOST_CMD_WRITE_EEPROM :: (le16 offset ++ len :: data)) (i + 4)) =
      data := by
    calc (List.range len).map
          (fun i => read8 (HOST_CMD_WRITE_EEPROM :: (le16 offset ++ len :: data)) (i + 4))
        = (List.range len).map (fun i => data.getD i 0) := by simp [hbyte]
      _ = (List.range data.length).map (fun i => data.getD i 0) := by rw [hlen]
      _ = data := getD_range_map data
  have hwrite : handleWriteEeprom m (HOST_CMD_WRITE_EEPROM :: (le16 offset ++ len :: data)) =
      ({ m with eeprom := eepromWriteBlock m.eeprom offset data }, [RC_OK, len]) := by
    have hdrop : ((List.range len).map (fun i => m.eeprom (offset + i))).drop len = [] :=
      List.drop_eq_nil_of_le (by simp)
    simp only [handleWriteEeprom, hr16w, hl8w]
    rw [foldl_set_overwrite _ len _ (by simp)]
    rw [hdrop, List.append_nil, hmap]
  have hread : handleReadEeprom { m with eeprom := eepromWriteBlock m.eeprom offset data }
      (HOST_CMD_READ_EEPROM :: (le16 offset ++ [len])) = RC_OK :: data := by
    simp only [handleReadEeprom, hr16r, hl8r]
    congr 1
    apply List.ext_getElem
    · simp [hlen]
    · intro i h1 h2
      simp only [List.length_map, List.length_range] at h1
      rw [List.getElem_map, List.getElem_range]
      have hcond : offset ≤ offset + i ∧ offset + i < offset + data.length := by omega
      simp only [eepromWriteBlock, if_pos hcond, Nat.add_sub_cancel_left]
      simp [List.getD, List.getElem?_eq_getElem h2]
  rw [hwrite]
  exact ⟨rfl, hread⟩

/-- C8 witness: writing `[1, 2, 3]` at offset 100 and reading 3 bytes at
offset 100 returns `[1, 2, 3]`. -/
theorem C8_witness :
    (handleWriteEeprom {} (HOST_CMD_WRITE_EEPROM :: (le16 100 ++ 3 :: [1, 2, 3]))).2 =
      [RC_OK, 3] ∧
    handleReadEeprom
      (handleWriteEeprom {} (HOST_CMD_WRITE_EEPROM :: (le16 100 ++ 3 :: [1, 2, 3]))).1
      (HOST_CMD_READ_EEPROM :: (le16 100 ++ [3])) = RC_OK :: [1, 2, 3] :=
  C8_eeprom_roundtrip {} 100 3 [1, 2, 3] (by decide) (by decide) (by decide)

/-! ### C2 — RESET / ABORT / CLEAR_BUFFER during a build -/

/-- C2: a RESET, ABORT or CLEAR_BUFFER request received while the host
state is BUILDING or BUILDING_FROM_SD always raises the board-level
reset-during-build indicator; when the persisted `CLEAR_FOR_ESTOP` policy
byte is 1 (policy does NOT permit abandoning the build without a cancel
sequence), the request is diverted into the cooperative cancel path
(`stopBuild`) and the immediate deferred reset is not armed; when the
policy byte reads otherwise (abandon permitted), no cancel is started and
the immediate deferred reset is armed. -/
theorem C2_reset_during_build (cfg : Config) (env : Env) (m : Machine) (pkt : List Nat)
    (hlen : 1 ≤ pkt.length)
    (hop : read8 pkt 0 = HOST_CMD_CLEAR_BUFFER ∨ read8 pkt 0 = HOST_CMD_ABORT ∨
           read8 pkt 0 = HOST_CMD_RESET)
    (hst : m.currentState = HostState.BUILDING ∨
           m.currentState = HostState.BUILDING_FROM_SD) :
    (processQueryPacket cfg env m pkt).handled = true ∧
    ERR_RESET_DURING_BUILD ∈ (processQueryPacket cfg env m pkt).fx.indicators ∧
    (getEeprom8 m.eeprom CLEAR_FOR_ESTOP 0 = 1 →
      (processQueryPacket cfg env m pkt).fx.stopBuildCalls = 1 ∧
      (processQueryPacket cfg env m pkt).fx.immediateResetArmed = false) ∧
    (getEeprom8 m.eeprom CLEAR_FOR_ESTOP 0 ≠ 1 →
      (processQueryPacket cfg env m pkt).fx.stopBuildCalls = 0 ∧
      (processQueryPacket cfg env m pkt).fx.immediateResetArmed = true ∧
      (processQueryPacket cfg env m pkt).m.do_host_reset = true) := by
  have hq : processQueryPacket cfg env m pkt =
      ⟨true, (handleResetRequest env m).1, (handleResetRequest env m).2.1,
        (handleResetRequest env m).2.2⟩ := by
    rcases hop with h | h | h <;>
      simp [processQueryPacket, if_pos hlen, h, HOST_CMD_CLEAR_BUFFER, HOST_CMD_ABORT,
            HOST_CMD_RESET, HOST_CMD_VERSION, HOST_CMD_GET_BUILD_NAME, HOST_CMD_INIT] <;>
      decide
  rw [hq]
  by_cases hee : getEeprom8 m.eeprom CLEAR_FOR_ESTOP 0 = 1
  · have hrr : handleResetRequest env m =
        ((stopBuild env.now { m with buildState := BuildState.CANCELED }).1, [RC_OK],
         Effects.merge (stopBuild env.now { m with buildState := BuildState.CANCELED }).2
           { indicators := [ERR_RESET_DURING_BUILD] }) := by
      unfold handleResetRequest
      rw [if_pos hst, if_pos hee]
    rw [hrr]
    refine ⟨rfl, ?_, fun _ => ⟨?_, ?_⟩, fun hne => absurd hee hne⟩ <;>
      unfold stopBuild <;>
      by_cases hp : (isPausedB m.pauseSt || pauseIntermediateStateB m.pauseSt) = true <;>
      simp [hp, Effects.merge]
  · have hrr : handleResetRequest env m =
        ({ m with do_host_reset := true,
                  do_host_reset_timeout := Timeout.startT env.now 200000 }, [RC_OK],
         ({ indicators := [ERR_RESET_DURING_BUILD], immediateResetArmed := true } : Effects)) := by
      unfold handleResetRequest
      rw [if_pos hst, if_neg hee]
    rw [hrr]
    exact ⟨rfl, by simp, fun h => absurd h hee, fun _ => ⟨rfl, rfl, rfl⟩⟩

/-- C2 witness: a RESET received while BUILDING with the cancel policy
byte set diverts into the cancel path without arming the immediate
reset. -/
theorem C2_witness :
    (processQueryPacket {} {}
      { currentState := HostState.BUILDING, eeprom := fun _ => 1 }
      [HOST_CMD_RESET]).fx.stopBuildCalls = 1 ∧
    (processQueryPacket {} {}
      { currentState := HostState.BUILDING, eeprom := fun _ => 1 }
      [HOST_CMD_RESET]).fx.immediateResetArmed = false ∧
    ERR_RESET_DURING_BUILD ∈ (processQueryPacket {} {}
      { currentState := HostState.BUILDING, eeprom := fun _ => 1 }
      [HOST_CMD_RESET]).fx.indicators := by
  have h := C2_reset_during_build {} {}
    { currentState := HostState.BUILDING, eeprom := fun _ => 1 }
    [HOST_CMD_RESET] (by decide) (by simp [read8]) (by simp)
  have hee : getEeprom8 (fun _ => (1 : Nat)) CLEAR_FOR_ESTOP 0 = 1 := by decide
  exact ⟨(h.2.2.1 hee).1, (h.2.2.1 hee).2, h.2.1⟩

/-! ### C6 — deferred reset held for a pending cancel notification -/


/-! ### C6 — deferred reset held for a pending cancel notification -/

theorem startT_not_elapsed (now d : Nat) (hd : 0 < d) :
    (Timeout.startT now d).hasElapsed now = false := by
  simp [Timeout.startT, Timeout.hasElapsed, Timeout.getCurrentElapsed]
  omega

theorem stopBuildNow_fields (now : Nat) (m : Machine) :
    (stopBuildNow now m).do_host_reset = true ∧
    (stopBuildNow now m).cancelBuild =
      (if m.currentState = HostState.BUILDING then true else m.cancelBuild) ∧
    (stopBuildNow now m).cancel_timeout =
      (if m.currentState = HostState.BUILDING then Timeout.startT now 1000000
       else m.cancel_timeout) := by
  dsimp only [stopBuildNow, stopPrintTime, getPrintTime]
  split <;> simp

theorem runHostSlice_boardReset_iff (cfg : Config) (env : Env) (m : Machine) :
    (runHostSlice cfg env m).boardReset = true ↔
      ¬(env.outIsSending = true ∧
          (¬(cancelFinalize env.now m).do_host_reset = true ∨
           ((cancelFinalize env.now m).do_host_reset = true ∧
            ¬(cancelFinalize env.now m).do_host_reset_timeout.hasElapsed env.now = true))) ∧
      ((cancelFinalize env.now m).do_host_reset = true ∧
       (¬(cancelFinalize env.now m).cancelBuild = true ∨
        (cancelFinalize env.now m).cancel_timeout.hasElapsed env.now = true)) := by
  dsimp only [runHostSlice]
  split
  · rename_i hA
    exact iff_of_false (by simp) (fun hc => hc.1 hA)
  · rename_i hA
    split
    · rename_i hB
      exact iff_of_true rfl ⟨hA, hB⟩
    · rename_i hB
      exact iff_of_false (by simp) (fun hc => hB hc.2)

/-- C6: while a deferred host reset and a cancel notification are both
pending, a tick does not perform the board reset unless the 1-second
cancel grace timeout has elapsed (first two conjuncts: no reset while the
grace window is open, and any tick that does reset with the notification
still pending had an elapsed grace timeout); once the notification has
been sent (`cancelBuild` cleared) the reset fires on the next tick that
is not blocked by an in-flight reply (third conjunct). -/
theorem C6_reset_waits_for_cancel (cfg : Config) (env : Env) (m : Machine) :
    (m.do_host_reset = true → m.cancelBuild = true →
      m.cancel_timeout.hasElapsed env.now = false →
      (runHostSlice cfg env m).boardReset = false) ∧
    (m.cancelBuild = true →
      (runHostSlice cfg env m).boardReset = true →
      m.cancel_timeout.hasElapsed env.now = true) ∧
    (m.do_host_reset = true → m.cancelBuild = false → env.outIsSending = false →
      (m.buildState = BuildState.CANCELLING ∧ m.pauseSt = PauseState.PAUSED → False) →
      (runHostSlice cfg env m).boardReset = true) := by
  have hcb : m.cancelBuild = true → (cancelFinalize env.now m).cancelBuild = true := by
    intro h
    unfold cancelFinalize
    split
    · rcases (stopBuildNow_fields env.now m).2.1 with hf
      rw [hf]; split <;> simp [h]
    · exact h
  have hel : m.cancelBuild = true → m.cancel_timeout.hasElapsed env.now = false →
      (cancelFinalize env.now m).cancel_timeout.hasElapsed env.now = false := by
    intro _ h
    unfold cancelFinalize
    split
    · rcases (stopBuildNow_fields env.now m).2.2 with hf
      rw [hf]; split
      · exact startT_not_elapsed env.now 1000000 (by norm_num)
      · exact h
    · exact h
  have hel2 : (cancelFinalize env.now m).cancel_timeout.hasElapsed env.now = true →
      m.cancel_timeout.hasElapsed env.now = true := by
    intro h
    unfold cancelFinalize at h
    split at h
    · rw [(stopBuildNow_fields env.now m).2.2] at h
      split at h
      · rw [startT_not_elapsed env.now 1000000 (by norm_num)] at h
        exact absurd h (by simp)
      · exact h
    · exact h
  refine ⟨?_, ?_, ?_⟩
  · intro hdr hc hne
    have h1 := hcb hc
    have h2 := hel hc hne
    cases hbr : (runHostSlice cfg env m).boardReset with
    | false => rfl
    | true =>
        rcases (runHostSlice_boardReset_iff cfg env m).mp hbr with ⟨_, _, hor⟩
        rcases hor with h | h
        · exact absurd h1 h
        · rw [h2] at h; exact absurd h (by simp)
  · intro hc hbr
    rcases (runHostSlice_boardReset_iff cfg env m).mp hbr with ⟨_, _, hor⟩
    rcases hor with h | h
    · exact absurd (hcb hc) h
    · exact hel2 h
  · intro hdr hnc hsend hnot
    have hcf : cancelFinalize env.now m = m := by
      unfold cancelFinalize
      rw [if_neg hnot]
    apply (runHostSlice_boardReset_iff cfg env m).mpr
    rw [hcf]
    refine ⟨fun hc => ?_, hdr, Or.inl (by simp [hnc])⟩
    rw [hsend] at hc
    exact Bool.false_ne_true hc.1

/-- C6 witness: with reset and cancel both pending and the grace window
open, the tick does not reset; after the notification has been sent, an
unblocked tick does reset. -/
theorem C6_witness :
    (runHostSlice {} { now := 5 }
      { do_host_reset := true, cancelBuild := true,
        cancel_timeout := Timeout.startT 0 1000000 }).boardReset = false ∧
    (runHostSlice {} { now := 5 } { do_host_reset := true }).boardReset = true := by
  refine ⟨(C6_reset_waits_for_cancel {} { now := 5 }
            { do_host_reset := true, cancelBuild := true,
              cancel_timeout := Timeout.startT 0 1000000 }).1 rfl rfl (by decide),
          (C6_reset_waits_for_cancel {} { now := 5 } { do_host_reset := true }).2.2
            rfl rfl rfl (by decide)⟩
